import Mathlib

/-!
Verification of the sky_mcp gateway core (response envelopes, path sandbox,
atomic report writer, similarity-result post-processing, tool registry)
against its natural-language specification.

The Python modules under src/sky_mcp are shallowly embedded:
pure functions become Lean functions; interaction with the operating
system (path normalization, stat, environment variables) is captured by an
explicit record of system capabilities (`PySys`) or an explicit filesystem
state (`WriteFS`); Python exceptions become `Except`/explicit error
constructors.  Python `float` distances are modelled as rationals, and the
builtin `int(string)` conversion is embedded as `pyIntParse`.
-/

namespace SkyMCP

/-! ### Embedding of src/sky_mcp/response.py

Python `dict`/values are modelled by the inductive `PyVal`; a dict is an
association list whose lookup returns the first matching key (our
constructions never duplicate keys). -/

inductive PyVal where
  | none
  | bool (b : Bool)
  | int (n : Int)
  | str (s : String)
  | dict (entries : List (String × PyVal))
  | list (xs : List PyVal)

/-- First-match lookup, `resp[k]` combined with `k in resp` (returns
`Option.none` exactly when the key is absent). -/
def dictGet : PyVal → String → Option PyVal
  | .dict es, k =>
    match es.find? (fun e => e.1 == k) with
    | some e => some e.2
    | Option.none => Option.none
  | _, _ => Option.none

/-- Python truthiness of the modelled values (`bool(v)`). -/
def pyTruthy : PyVal → Bool
  | .none => false
  | .bool b => b
  | .int n => decide (n ≠ 0)
  | .str s => !s.data.isEmpty
  | .dict es => !es.isEmpty
  | .list xs => !xs.isEmpty

/-- `isinstance(v, dict)`. -/
def isDictV : PyVal → Bool
  | .dict _ => true
  | _ => false

/-- A light rendering of a value, used only inside assertion-message
strings (the real code interpolates `str(value)`; the exact text of these
messages is not load-bearing for any invariant). -/
def pyToString : PyVal → String
  | .none => "None"
  | .bool true => "True"
  | .bool false => "False"
  | .int n => toString n
  | .str s => s
  | .dict _ => "dict"
  | .list _ => "list"

/-- `ALLOWED_ERROR_TYPES` from response.py (a set in the source; order is
irrelevant, membership is what is used). -/
def ALLOWED_ERROR_TYPES : List String :=
  ["missing_env", "file_not_found", "invalid_input", "permission_denied",
   "file_too_large", "mp_api_error", "upstream_timeout",
   "upstream_rate_limited", "runtime_error"]

/-- The error-branch asserts of `validate_envelope` (isinstance dict, the
three required keys, and the closed error-type set), in source order. -/
def errorDetailCheck (err : PyVal) : Except String Unit :=
  if !isDictV err then .error "error must be dict."
  else if (dictGet err "type").isNone then .error "error missing type."
  else if (dictGet err "message").isNone then .error "error missing message."
  else if (dictGet err "details").isNone then .error "error missing details."
  else
    match dictGet err "type" with
    | some (PyVal.str t) =>
      if ALLOWED_ERROR_TYPES.contains t then .ok ()
      else .error ("Invalid error.type: " ++ t)
    | some v => .error ("Invalid error.type: " ++ pyToString v)
    | Option.none => .error "error missing type."

/-- The assert chain of `validate_envelope` (response.py lines 34-52); the
returned `String` is the `AssertionError` message. -/
def envelopeCheck (resp : PyVal) : Except String Unit :=
  if !isDictV resp then .error "Envelope must be a dict."
  else if (dictGet resp "ok").isNone then .error "Envelope missing ok."
  else if (dictGet resp "data").isNone then .error "Envelope missing data."
  else if (dictGet resp "error").isNone then .error "Envelope missing error."
  else if (dictGet resp "meta").isNone then .error "Envelope missing meta."
  else if (dictGet resp "provenance").isNone then .error "Envelope missing provenance."
  else if !isDictV ((dictGet resp "meta").getD PyVal.none) then .error "meta must be dict."
  else if !isDictV ((dictGet resp "provenance").getD PyVal.none) then .error "provenance must be dict."
  else
    match dictGet resp "ok" with
    | some (PyVal.bool true) =>
      match dictGet resp "error" with
      | some PyVal.none => .ok ()
      | _ => .error "ok True requires error=None."
    | _ =>
      match dictGet resp "data" with
      | some PyVal.none => errorDetailCheck ((dictGet resp "error").getD PyVal.none)
      | _ => .error "ok False requires data=None."

/-- `meta or {}` / `provenance or {}` in `_envelope`. -/
def metaOrEmpty (v : PyVal) : PyVal :=
  if pyTruthy v then v else .dict []

/-- `_envelope` from response.py: the canonical five-key response dict. -/
def _envelope (ok : Bool) (data err meta prov : PyVal) : PyVal :=
  .dict [("ok", .bool ok), ("data", data), ("error", err),
         ("meta", metaOrEmpty meta), ("provenance", metaOrEmpty prov)]

/-- The substitute envelope built in the non-strict failure branch of
`validate_envelope`. -/
def syntheticEnvelope (msg : String) : PyVal :=
  _envelope false PyVal.none
    (.dict [("type", .str "runtime_error"),
            ("message", .str "Envelope validation failed."),
            ("details", .str msg)])
    (.dict []) (.dict [])

/-- `validate_envelope(resp, strict)`: `.error` models the re-raised
`AssertionError` of strict mode. -/
def validate_envelope (resp : PyVal) (strict : Bool) : Except String PyVal :=
  match envelopeCheck resp with
  | .ok _ => .ok resp
  | .error msg => if strict then .error msg else .ok (syntheticEnvelope msg)

/-- `make_ok` from response.py.  The `.error` arm is unreachable because
non-strict validation always returns a value; it repeats the non-strict
substitution so the function is total. -/
def make_ok (data meta prov : PyVal) : PyVal :=
  match validate_envelope (_envelope true data PyVal.none meta prov) false with
  | .ok r => r
  | .error msg => syntheticEnvelope msg

/-- `make_err` from response.py (same remark as `make_ok`). -/
def make_err (error_type message : String) (details meta prov : PyVal) : PyVal :=
  match validate_envelope
      (_envelope false PyVal.none
        (.dict [("type", .str error_type), ("message", .str message),
                ("details", details)])
        meta prov) false with
  | .ok r => r
  | .error msg => syntheticEnvelope msg

theorem envelopeCheck_synthetic (msg : String) :
    envelopeCheck (syntheticEnvelope msg) = .ok () := rfl

/-! ### Embedding of src/sky_mcp/paths.py

`resolve_local_path` interacts with the operating system through
`pathlib`/`os`; those capabilities are collected in a `PySys` record, so
the function becomes a pure function of its arguments plus the system
state.  `expandUser` models `Path(s).expanduser()`, which the source
wraps in `try`; `resolvePath` models `Path.resolve(strict=False)`, which
can also raise (e.g. `ValueError` for an embedded NUL byte) but sits
OUTSIDE that `try`, so its exception escapes untyped (`RLP.crash`);
`statSize` models `stat().st_size` (may raise `OSError`, caught). -/

/-- Values appearing in a `PathResolutionError.details` dict. -/
inductive DVal where
  | str (s : String)
  | strList (l : List String)
  | nat (n : Nat)
  | int (n : Int)
deriving DecidableEq

/-- `PathResolutionError(error_type, message, details)`. -/
structure PathErr where
  error_type : String
  message : String
  details : List (String × DVal)
deriving DecidableEq

/-- Outcome of `resolve_local_path`: a returned path, a raised
`PathResolutionError`, or an exception of another kind escaping untyped
(possible where the source calls `resolve(strict=False)` on the candidate
or normalizes a configured root, both outside any `try`). -/
inductive RLP where
  | ok (p : String)
  | err (e : PathErr)
  | crash (msg : String)
deriving DecidableEq

/-- System capabilities and environment read by paths.py. -/
structure PySys where
  expandUser : String → Except String String
  resolvePath : String → Except String String
  isRelativeTo : String → String → Bool
  pathExists : String → Bool
  pathIsFile : String → Bool
  statSize : String → Except String Nat
  envMaxFileBytes : Option String
  envAllowedRoots : Option String
  repoRoot : String
  assetsDir : String
  cwd : String
  pathSep : String

/-- `DEFAULT_MAX_FILE_BYTES` from paths.py. -/
def DEFAULT_MAX_FILE_BYTES : Int := 2000000

/-- Python `str.strip()`: whitespace dropped from both ends, on the
character list of the string. -/
def stripWS (l : List Char) : List Char :=
  ((l.dropWhile Char.isWhitespace).reverse.dropWhile Char.isWhitespace).reverse

/-- `str.strip()` as a `String` operation. -/
def pyStrip (s : String) : String := ⟨stripWS s.data⟩

/-- Digit tail of Python `int(string)` parsing: decimal digits with single
underscores allowed between digits. -/
def pyDigitsGo : Nat → List Char → Option Nat
  | acc, [] => some acc
  | acc, '_' :: d :: rest =>
    if d.isDigit then pyDigitsGo (acc * 10 + (d.toNat - 48)) rest else Option.none
  | _, ['_'] => Option.none
  | acc, d :: rest =>
    if d.isDigit then pyDigitsGo (acc * 10 + (d.toNat - 48)) rest else Option.none

/-- Nonempty digit sequence of Python `int(string)`. -/
def pyDigits : List Char → Option Nat
  | [] => Option.none
  | d :: rest =>
    if d.isDigit then pyDigitsGo (d.toNat - 48) rest else Option.none

/-- Embedding of the builtin `int(string)` on the strings relevant here:
surrounding whitespace stripped, optional sign, decimal digits;
`Option.none` models the `ValueError`. -/
def pyIntParse (s : String) : Option Int :=
  match stripWS s.data with
  | '+' :: rest => (pyDigits rest).map (fun n => (n : Int))
  | '-' :: rest => (pyDigits rest).map (fun n => -(n : Int))
  | l => (pyDigits l).map (fun n => (n : Int))

/-- `_parse_max_bytes` from paths.py; the argument is the value of the
`SKY_MCP_MAX_FILE_BYTES` environment variable (`Option.none` = unset). -/
def _parse_max_bytes (value : Option String) : Int :=
  match value with
  | Option.none => DEFAULT_MAX_FILE_BYTES
  | some v =>
    if v.data.isEmpty then DEFAULT_MAX_FILE_BYTES
    else
      match pyIntParse v with
      | some parsed => if parsed > 0 then parsed else DEFAULT_MAX_FILE_BYTES
      | Option.none => DEFAULT_MAX_FILE_BYTES

/-- `_default_allowed_roots` from paths.py: repo root, assets dir, cwd,
plus the stripped nonempty entries of the pathsep-delimited
`SKY_MCP_ALLOWED_ROOTS` override. -/
def _default_allowed_roots (sys : PySys) : List String :=
  let base := [sys.repoRoot, sys.assetsDir, sys.cwd]
  match sys.envAllowedRoots with
  | Option.none => base
  | some extra =>
    if extra.data.isEmpty then base
    else base ++ (((extra.splitOn sys.pathSep).map pyStrip).filter
      (fun r => !r.data.isEmpty))

/-- `roots = list(allowed_roots) if allowed_roots is not None else
_default_allowed_roots()`. -/
def effectiveRoots (sys : PySys) : Option (List String) → List String
  | some rs => rs
  | Option.none => _default_allowed_roots sys

/-- `[Path(root).expanduser().resolve(strict=False) for root in roots]`;
neither step is wrapped in any `try` here, hence `Except`. -/
def normalizeRoots (sys : PySys) (roots : List String) : Except String (List String) :=
  roots.mapM (fun r => (sys.expandUser r).bind sys.resolvePath)

/-- `limit = max_bytes if max_bytes is not None else _parse_max_bytes()`. -/
def effectiveLimit (sys : PySys) (max_bytes : Option Int) : Int :=
  match max_bytes with
  | some m => m
  | Option.none => _parse_max_bytes sys.envMaxFileBytes

/-- `resolve_local_path` from paths.py, check for check in source order. -/
def resolve_local_path (sys : PySys) (path_str : String)
    (allowed_roots : Option (List String)) (max_bytes : Option Int) : RLP :=
  if path_str.data.isEmpty || (stripWS path_str.data).isEmpty then
    .err ⟨"invalid_input", "Path is required.", []⟩
  else
    match sys.expandUser path_str with
    | .error e => .err ⟨"invalid_input", "Invalid path string.", [("error", .str e)]⟩
    | .ok candidate =>
      match sys.resolvePath candidate with
      | .error e => .crash e
      | .ok resolved =>
      match normalizeRoots sys (effectiveRoots sys allowed_roots) with
      | .error e => .crash e
      | .ok resolved_roots =>
        if !(resolved_roots.any (fun root => sys.isRelativeTo resolved root)) then
          .err ⟨"permission_denied", "Path is outside allowed roots.",
                [("path", .str resolved), ("allowed_roots", .strList resolved_roots)]⟩
        else if !(sys.pathExists resolved) then
          .err ⟨"file_not_found", "File not found.", [("path", .str resolved)]⟩
        else if !(sys.pathIsFile resolved) then
          .err ⟨"invalid_input", "Path is not a file.", [("path", .str resolved)]⟩
        else
          match sys.statSize resolved with
          | .error e => .err ⟨"runtime_error", "Unable to stat file.",
                              [("path", .str resolved), ("error", .str e)]⟩
          | .ok size =>
            if (size : Int) > effectiveLimit sys max_bytes then
              .err ⟨"file_too_large", "File exceeds size limit.",
                    [("path", .str resolved), ("size", .nat size),
                     ("max_bytes", .int (effectiveLimit sys max_bytes))]⟩
            else .ok resolved

/-! ### Embedding of src/sky_mcp/report_io.py

File names are modelled as `List Char` (to reason about
stem/suffix/slug character manipulation), directories as `List String`
path components, and the written filesystem as explicit state. -/

/-- A concrete filesystem path: directory components plus a file name. -/
structure WPath where
  dir : List String
  name : List Char
deriving DecidableEq

/-- Helper for the `PurePath.stem`/`suffix` split: on a reversed name,
split at the first `'.'`, returning (chars before it, chars after it),
both still reversed. -/
def revSplitAtDot : List Char → Option (List Char × List Char)
  | [] => Option.none
  | c :: rest =>
    if c = '.' then some ([], rest)
    else
      match revSplitAtDot rest with
      | some p => some (c :: p.1, p.2)
      | Option.none => Option.none

/-- `(PurePath(name).stem, PurePath(name).suffix)`: split at the last dot
provided the dot is neither the first nor the last character. -/
def pySplitName (n : List Char) : List Char × List Char :=
  match revSplitAtDot n.reverse with
  | some p => if p.1.isEmpty || p.2.isEmpty then (n, []) else (p.2.reverse, '.' :: p.1.reverse)
  | Option.none => (n, [])

/-- `target_path.stem`. -/
def pyStem (n : List Char) : List Char := (pySplitName n).1

/-- The character class `[A-Za-z0-9_-]` of the slug regex. -/
def isSlugChar (c : Char) : Bool :=
  c.isAlphanum || c = '_' || c = '-'

/-- `re.sub(r"[^A-Za-z0-9_-]+", "_", text)`: each maximal run of
characters outside the class is replaced by a single underscore (the
`inRun` flag records being inside such a run). -/
def collapseAux : Bool → List Char → List Char
  | _, [] => []
  | inRun, c :: rest =>
    if isSlugChar c then c :: collapseAux false rest
    else if inRun then collapseAux true rest
    else '_' :: collapseAux true rest

/-- The regex substitution applied by `_slugify`. -/
def collapseSub (l : List Char) : List Char := collapseAux false l

/-- `.strip("_")`: drop underscores from both ends. -/
def stripUnderscores (l : List Char) : List Char :=
  ((l.dropWhile (fun c => c = '_')).reverse.dropWhile (fun c => c = '_')).reverse

/-- `_slugify(text)` from report_io.py with its default `max_len = 50`. -/
def _slugify (text : List Char) : List Char :=
  let slug := stripUnderscores (collapseSub text)
  let slug := if slug.isEmpty then "report".data else slug
  slug.take 50

/-- `build_report_path(query, reports_dir, uuid_func)`: the file name is
`f"{slug}_{uid}.html"` under `reports_dir`; `uuid_func` models the
identifier generator (already rendered through `str`). -/
def build_report_path (query : List Char) (reports_dir : List String)
    (uuid_func : Unit → List Char) : WPath :=
  ⟨reports_dir, _slugify query ++ '_' :: (uuid_func () ++ ".html".data)⟩

/-- Filesystem state seen by `atomic_write_text`: the set of existing
directories and the file contents. -/
structure WriteFS where
  dirs : List (List String)
  files : List (WPath × String)

/-- Read a file (first matching entry). -/
def getFile : List (WPath × String) → WPath → Option String
  | [], _ => Option.none
  | e :: rest, p => if e.1 = p then some e.2 else getFile rest p

/-- Remove a file's entries. -/
def remFile (files : List (WPath × String)) (p : WPath) : List (WPath × String) :=
  files.filter (fun e => decide (e.1 ≠ p))

/-- Create or overwrite a file. -/
def setFile (files : List (WPath × String)) (p : WPath) (c : String) :
    List (WPath × String) :=
  (p, c) :: remFile files p

/-- `target_path.parent.mkdir(parents=True, exist_ok=True)`: every prefix
of the directory now exists. -/
def mkdirParents (fs : WriteFS) (d : List String) : WriteFS :=
  { fs with dirs := (List.range (d.length + 1)).map (fun k => d.take k) ++ fs.dirs }

/-- Name of the `NamedTemporaryFile`:
`prefix=target_path.stem + "_"`, a generated random part, `suffix=".tmp"`. -/
def tmpNameOf (targetName : List Char) (rand : List Char) : List Char :=
  pyStem targetName ++ '_' :: (rand ++ ".tmp".data)

/-- `atomic_write_text(target_path, content)` from report_io.py: ensure
the directory exists, write the full content to the temporary file in the
same directory, then `os.replace` it onto the target.  `rand` is the
random part of the temporary name chosen by `tempfile`. -/
def atomic_write_text (fs : WriteFS) (rand : List Char) (target : WPath)
    (content : String) : WriteFS :=
  let fs1 := mkdirParents fs target.dir
  let tmp : WPath := ⟨target.dir, tmpNameOf target.name rand⟩
  let fs2 : WriteFS := { fs1 with files := setFile fs1.files tmp content }
  { fs2 with files := setFile (remFile fs2.files tmp) target content }

/-- The slug derivation exactly as the specification words it (claim C7):
"replacing every character outside `[A-Za-z0-9_-]` with `_`, trimming
leading/trailing `_`, truncating to a bounded length (50), defaulting to
the literal `report` if the result is empty".  Kept separate so it can be
compared with the source's `_slugify`. -/
def slugifyClaimed (text : List Char) : List Char :=
  let replaced := text.map (fun c => if isSlugChar c then c else '_')
  let trimmed := (stripUnderscores replaced).take 50
  if trimmed.isEmpty then "report".data else trimmed

/-! ### Embedding of the neighbor post-processing in src/sky_mcp/tools.py

`search_similar_by_composition` (and its structure variants) re-sort the
collaborator-supplied neighbors by the key
`(n.distance, n.material_id, n.formula)` and enumerate them from rank 1,
deriving `similarity = 1 / (1 + distance)`.  Distances (Python floats)
are modelled as rationals; `sorted` is modelled by insertion sort, which
agrees with any stable sort here because the sort key determines the whole
record. -/

/-- A collaborator-supplied neighbor record `{material_id, formula,
distance}`. -/
structure Neighbor where
  material_id : String
  formula : String
  distance : ℚ
deriving DecidableEq

/-- One entry of the returned neighbor list. -/
structure ResultEntry where
  rank : Nat
  material_id : String
  formula : String
  distance : ℚ
  similarity : ℚ
deriving DecidableEq

/-- `_derived_similarity(distance)` from tools.py. -/
def _derived_similarity (distance : ℚ) : ℚ := 1 / (1 + distance)

/-- The sort key `(n.distance, n.material_id, n.formula)` compared
lexicographically, as Python compares key tuples. -/
def neighborKey (n : Neighbor) : ℚ ×ₗ String ×ₗ String :=
  toLex (n.distance, toLex (n.material_id, n.formula))

/-- Key comparison used by `sorted`. -/
def neighborLE (a b : Neighbor) : Prop := neighborKey a ≤ neighborKey b

instance : DecidableRel neighborLE := fun a b =>
  inferInstanceAs (Decidable (neighborKey a ≤ neighborKey b))

instance : IsTotal Neighbor neighborLE :=
  ⟨fun a b => le_total (neighborKey a) (neighborKey b)⟩

instance : IsTrans Neighbor neighborLE :=
  ⟨fun _ _ _ h1 h2 => le_trans h1 h2⟩

theorem neighborKey_inj {a b : Neighbor} (h : neighborKey a = neighborKey b) :
    a = b := by
  cases a; cases b
  simp only [neighborKey, toLex_inj, Prod.mk.injEq] at h
  simp_all

instance : IsAntisymm Neighbor neighborLE :=
  ⟨fun _ _ h1 h2 => neighborKey_inj (le_antisymm h1 h2)⟩

/-- `sorted(neighbors, key=lambda n: (n.distance, n.material_id,
n.formula))`. -/
def sortNeighbors (ns : List Neighbor) : List Neighbor :=
  ns.insertionSort neighborLE

/-- The `for idx, neighbor in enumerate(neighbors, start=1)` loop body of
`search_similar_by_composition`. -/
def mkResults : Nat → List Neighbor → List ResultEntry
  | _, [] => []
  | idx, n :: rest =>
    ⟨idx, n.material_id, n.formula, n.distance, _derived_similarity n.distance⟩
      :: mkResults (idx + 1) rest

/-- The neighbor list a successful similarity-search operation returns,
as a function of the collaborator's response. -/
def neighborResults (ns : List Neighbor) : List ResultEntry :=
  mkResults 1 (sortNeighbors ns)

/-- Comparison of returned entries by `(distance, material_id, formula)`. -/
def resultLE (a b : ResultEntry) : Prop :=
  toLex (a.distance, toLex (a.material_id, a.formula)) ≤
    toLex (b.distance, toLex (b.material_id, b.formula))

/-! ### Embedding of src/sky_mcp/server.py

The handlers themselves are opaque; what matters for the registry is the
identity of the function object, modelled by one constructor per handler
in `TOOL_DEFS` order of first appearance. -/

/-- The tool handler functions of sky_mcp.tools referenced by the
registry. -/
inductive ToolFun where
  | capabilities
  | search_similar_by_composition
  | search_similar_by_structure_cif
  | search_similar_by_structure_path
  | read_cif
  | read_cif_path
  | get_material_properties
  | get_synthesis_recipes
  | analyze_synthesis_parameters
  | recursive_synthesis_search
  | discover_synthesis_report
  | self_check
deriving DecidableEq

/-- One `ToolDef` tuple `(name, handler, description)`. -/
structure ToolDef where
  name : String
  handler : ToolFun
  description : String
deriving DecidableEq

/-- What one call of the backend's decorator factory receives: the
explicit name/description when the backend supports named registration,
otherwise only the callable. -/
structure Registration where
  name : Option String
  description : Option String
  func : ToolFun
deriving DecidableEq

/-- `TOOL_DEFS` from server.py, verbatim. -/
def TOOL_DEFS : List ToolDef :=
  [⟨"capabilities", .capabilities,
    "Report available assets, env vars, and versions."⟩,
   ⟨"search_similar_by_composition", .search_similar_by_composition,
    "Find similar materials by composition."⟩,
   ⟨"search_similar_by_structure_cif", .search_similar_by_structure_cif,
    "Find similar materials by CIF text (canonical)."⟩,
   ⟨"search_similar_by_structure_path", .search_similar_by_structure_path,
    "Find similar materials by CIF file path (local-only)."⟩,
   ⟨"read_cif", .read_cif,
    "Read CIF text and return structure metadata."⟩,
   ⟨"read_cif_path", .read_cif_path,
    "Read CIF file path and return structure metadata (local-only)."⟩,
   ⟨"get_material_properties", .get_material_properties,
    "Fetch Materials Project properties."⟩,
   ⟨"get_synthesis_recipes", .get_synthesis_recipes,
    "Retrieve synthesis recipes for a formula."⟩,
   ⟨"analyze_synthesis_parameters", .analyze_synthesis_parameters,
    "Extract synthesis parameters from text."⟩,
   ⟨"recursive_synthesis_search", .recursive_synthesis_search,
    "Recursive synthesis search using similarity neighbors."⟩,
   ⟨"discover_synthesis_report", .discover_synthesis_report,
    "Expensive, networked, nondeterministic synthesis report."⟩,
   ⟨"self_check", .self_check,
    "Run deterministic checks for MCP readiness."⟩]

/-- `_register_tools` from server.py: registers each descriptor in order,
choosing the named or the positional convention, with no other
processing. -/
def _register_tools (supportsNamed : Bool) (defs : List ToolDef) :
    List Registration :=
  defs.map (fun d =>
    if supportsNamed then ⟨some d.name, some d.description, d.handler⟩
    else ⟨Option.none, Option.none, d.handler⟩)

/-! ### Concrete system states used by the witnesses -/

/-- A system on which every path normalizes to itself, nothing is under
any root, and nothing exists. -/
def sysEscape : PySys :=
  { expandUser := fun s => .ok s
    resolvePath := fun s => .ok s
    isRelativeTo := fun _ _ => false
    pathExists := fun _ => false
    pathIsFile := fun _ => false
    statSize := fun _ => .ok 0
    envMaxFileBytes := Option.none
    envAllowedRoots := Option.none
    repoRoot := "/repo"
    assetsDir := "/repo/assets"
    cwd := "/cwd"
    pathSep := ":" }

/-- A system holding one admissible regular file of 2,000,001 bytes, with
no environment overrides. -/
def sysBigFile : PySys :=
  { expandUser := fun s => .ok s
    resolvePath := fun s => .ok s
    isRelativeTo := fun _ _ => true
    pathExists := fun _ => true
    pathIsFile := fun _ => true
    statSize := fun _ => .ok 2000001
    envMaxFileBytes := Option.none
    envAllowedRoots := Option.none
    repoRoot := "/repo"
    assetsDir := "/repo/assets"
    cwd := "/cwd"
    pathSep := ":" }

/-- A system on which constructing/expanding any path raises. -/
def sysBadExpand : PySys :=
  { expandUser := fun _ => .error "malformed path string"
    resolvePath := fun s => .ok s
    isRelativeTo := fun _ _ => true
    pathExists := fun _ => true
    pathIsFile := fun _ => true
    statSize := fun _ => .ok 0
    envMaxFileBytes := Option.none
    envAllowedRoots := Option.none
    repoRoot := "/repo"
    assetsDir := "/repo/assets"
    cwd := "/cwd"
    pathSep := ":" }

/-- A system on which `expanduser` succeeds but the subsequent
`resolve(strict=False)` normalization raises (as a `ValueError` does for
an embedded NUL byte in the path string). -/
def sysNulResolve : PySys :=
  { expandUser := fun s => .ok s
    resolvePath := fun _ => .error "embedded null byte"
    isRelativeTo := fun _ _ => true
    pathExists := fun _ => true
    pathIsFile := fun _ => true
    statSize := fun _ => .ok 0
    envMaxFileBytes := Option.none
    envAllowedRoots := Option.none
    repoRoot := "/repo"
    assetsDir := "/repo/assets"
    cwd := "/cwd"
    pathSep := ":" }

/-! ### Claim theorems: path sandbox -/

/-- Claim C1: whenever the normalized input path is not equal to or a
descendant of any normalized allowed root, `resolve_local_path` raises
`permission_denied` (never returns a path), with the rejected path and the
full normalized root list in the details.  Existence, file-kind and size
state of the system are unconstrained here, so the containment failure
wins over `file_not_found` for nonexistent escaping paths. -/
theorem resolve_escaping_yields_permission_denied
    (sys : PySys) (path_str : String) (allowed_roots : Option (List String))
    (max_bytes : Option Int) (candidate resolved : String) (rootsN : List String)
    (hblank : (path_str.data.isEmpty || (stripWS path_str.data).isEmpty) = false)
    (hexp : sys.expandUser path_str = .ok candidate)
    (hres : sys.resolvePath candidate = .ok resolved)
    (hroots : normalizeRoots sys (effectiveRoots sys allowed_roots) = .ok rootsN)
    (hout : rootsN.any (fun root => sys.isRelativeTo resolved root) = false) :
    resolve_local_path sys path_str allowed_roots max_bytes =
      .err ⟨"permission_denied", "Path is outside allowed roots.",
            [("path", .str resolved),
             ("allowed_roots", .strList rootsN)]⟩ := by
  simp [resolve_local_path, hblank, hexp, hres, hroots, hout]

/-- Witness for C1: a nonexistent traversal path escaping the three
default roots is rejected with `permission_denied`, not `file_not_found`. -/
theorem resolve_escaping_yields_permission_denied_witness :
    resolve_local_path sysEscape "../../etc/passwd" Option.none Option.none =
      .err ⟨"permission_denied", "Path is outside allowed roots.",
            [("path", .str "../../etc/passwd"),
             ("allowed_roots", .strList ["/repo", "/repo/assets", "/cwd"])]⟩ :=
  resolve_escaping_yields_permission_denied sysEscape "../../etc/passwd"
    Option.none Option.none "../../etc/passwd" "../../etc/passwd"
    ["/repo", "/repo/assets", "/cwd"] rfl rfl rfl rfl rfl

/-- Counterexample to C6 as stated: the `try` in `resolve_local_path`
wraps only `Path(path_str).expanduser()`; the subsequent
`resolve(strict=False)` normalization is outside it, so a path string on
which that step raises (as a `ValueError` does for an embedded NUL byte)
makes the exception escape untyped instead of producing the typed
`invalid_input` error. -/
theorem resolve_untyped_normalization_escape_cex :
    resolve_local_path sysNulResolve "some path" Option.none Option.none =
      .crash "embedded null byte" ∧
    RLP.crash "embedded null byte" ≠
      RLP.err ⟨"invalid_input", "Invalid path string.",
               [("error", DVal.str "embedded null byte")]⟩ := by
  refine ⟨rfl, by decide⟩

/-- Claim C6 (amended): an exception raised while constructing or
home-expanding the input path — the step the source wraps in `try` — is
mapped to the typed `invalid_input` error with the exception text in the
details; an exception raised by the subsequent `resolve(strict=False)`
normalization step escapes the function untyped. -/
theorem resolve_invalid_path_string
    (sys : PySys) (path_str : String) (allowed_roots : Option (List String))
    (max_bytes : Option Int) (e : String)
    (hblank : (path_str.data.isEmpty || (stripWS path_str.data).isEmpty) = false) :
    (sys.expandUser path_str = .error e →
      resolve_local_path sys path_str allowed_roots max_bytes =
        .err ⟨"invalid_input", "Invalid path string.", [("error", .str e)]⟩) ∧
    (∀ candidate, sys.expandUser path_str = .ok candidate →
      sys.resolvePath candidate = .error e →
      resolve_local_path sys path_str allowed_roots max_bytes = .crash e) := by
  refine ⟨fun hexp => ?_, fun candidate hexp hres => ?_⟩
  · simp [resolve_local_path, hblank, hexp]
  · simp [resolve_local_path, hblank, hexp, hres]

/-- Witness for C6 (amended): a failing expansion gives the typed
`invalid_input` error, a failing resolve escapes untyped. -/
theorem resolve_invalid_path_string_witness :
    resolve_local_path sysBadExpand "some path" Option.none Option.none =
      .err ⟨"invalid_input", "Invalid path string.",
            [("error", .str "malformed path string")]⟩ ∧
    resolve_local_path sysNulResolve "other path" Option.none Option.none =
      .crash "embedded null byte" :=
  ⟨(resolve_invalid_path_string sysBadExpand "some path" Option.none
      Option.none "malformed path string" rfl).1 rfl,
   (resolve_invalid_path_string sysNulResolve "other path" Option.none
      Option.none "embedded null byte" rfl).2 "other path" rfl rfl⟩

/-- Claim C9: resolution is a deterministic function of its arguments and
the system state; two successful calls with unchanged state yield equal
resolved paths. -/
theorem resolve_deterministic
    (sys : PySys) (path_str : String) (allowed_roots : Option (List String))
    (max_bytes : Option Int) (p q : String)
    (h1 : resolve_local_path sys path_str allowed_roots max_bytes = .ok p)
    (h2 : resolve_local_path sys path_str allowed_roots max_bytes = .ok q) :
    p = q := by
  rw [h1] at h2
  exact RLP.ok.inj h2

/-- Witness for C9: a concrete valid file resolves, twice, to the same
path. -/
theorem resolve_deterministic_witness :
    resolve_local_path sysBigFile "/repo/small.cif" Option.none (some 3000000) =
      .ok "/repo/small.cif" ∧
    ("/repo/small.cif" : String) = "/repo/small.cif" :=
  ⟨rfl, resolve_deterministic sysBigFile "/repo/small.cif" Option.none
    (some 3000000) "/repo/small.cif" "/repo/small.cif" rfl rfl⟩

/-- Claim C10: with an explicitly empty allowed-root collection (which is
not replaced by the default set; only an absent argument is),
`resolve_local_path` never succeeds: blank input fails `invalid_input`,
every normalizable input fails `permission_denied`. -/
theorem empty_allowed_roots_never_resolves
    (sys : PySys) (path_str : String) (max_bytes : Option Int) :
    (∀ p, resolve_local_path sys path_str (some []) max_bytes ≠ .ok p) ∧
    effectiveRoots sys (some []) = [] ∧
    effectiveRoots sys Option.none = _default_allowed_roots sys ∧
    ((path_str.data.isEmpty || (stripWS path_str.data).isEmpty) = true →
      resolve_local_path sys path_str (some []) max_bytes =
        .err ⟨"invalid_input", "Path is required.", []⟩) ∧
    (∀ candidate resolved,
      (path_str.data.isEmpty || (stripWS path_str.data).isEmpty) = false →
      sys.expandUser path_str = .ok candidate →
      sys.resolvePath candidate = .ok resolved →
      resolve_local_path sys path_str (some []) max_bytes =
        .err ⟨"permission_denied", "Path is outside allowed roots.",
              [("path", .str resolved),
               ("allowed_roots", .strList [])]⟩) := by
  refine ⟨?_, rfl, rfl, ?_, ?_⟩
  · intro p
    by_cases hblank : (path_str.data.isEmpty || (stripWS path_str.data).isEmpty) = true
    · simp [resolve_local_path, hblank]
    · rw [Bool.not_eq_true] at hblank
      cases hexp : sys.expandUser path_str with
      | error e => simp [resolve_local_path, hblank, hexp]
      | ok candidate =>
        cases hres : sys.resolvePath candidate with
        | error e => simp [resolve_local_path, hblank, hexp, hres]
        | ok resolved =>
          have hroots : normalizeRoots sys (effectiveRoots sys (some [])) = .ok [] := rfl
          simp [resolve_local_path, hblank, hexp, hres, hroots]
  · intro hblank
    simp [resolve_local_path, hblank]
  · intro candidate resolved hblank hexp hres
    have hroots : normalizeRoots sys (effectiveRoots sys (some [])) = .ok [] := rfl
    simp [resolve_local_path, hblank, hexp, hres, hroots]

/-- Witness for C10: `"/repo"` lies under the default roots of
`sysBigFile` yet fails with `permission_denied` when the caller passes an
empty root collection, and blank input fails `invalid_input`. -/
theorem empty_allowed_roots_never_resolves_witness :
    resolve_local_path sysBigFile "/repo" (some []) Option.none =
      .err ⟨"permission_denied", "Path is outside allowed roots.",
            [("path", .str "/repo"), ("allowed_roots", .strList [])]⟩ ∧
    resolve_local_path sysBigFile "  " (some []) Option.none =
      .err ⟨"invalid_input", "Path is required.", []⟩ :=
  ⟨(empty_allowed_roots_never_resolves sysBigFile "/repo" Option.none).2.2.2.2
      "/repo" "/repo" rfl rfl rfl,
   (empty_allowed_roots_never_resolves sysBigFile "  " Option.none).2.2.2.1
      (by decide)⟩

theorem pyIntParse_data_ne_nil {v : String} {n : Int}
    (h : pyIntParse v = some n) : v.data.isEmpty = false := by
  cases hd : v.data with
  | nil => simp [pyIntParse, hd, stripWS, pyDigits] at h
  | cons c rest => simp [hd]

/-- Claim C4: the effective byte ceiling is the caller-supplied bound when
given, else the environment override when it parses as a positive integer,
else the default 2,000,000 (non-numeric or non-positive overrides are
ignored); an admissible regular file strictly larger than the ceiling
fails `file_too_large` with the actual size and the limit in the details. -/
theorem resolve_size_ceiling
    (sys : PySys) (path_str : String) (allowed_roots : Option (List String))
    (max_bytes : Option Int) (candidate resolved : String)
    (rootsN : List String) (size : Nat)
    (hblank : (path_str.data.isEmpty || (stripWS path_str.data).isEmpty) = false)
    (hexp : sys.expandUser path_str = .ok candidate)
    (hres : sys.resolvePath candidate = .ok resolved)
    (hroots : normalizeRoots sys (effectiveRoots sys allowed_roots) = .ok rootsN)
    (hin : rootsN.any (fun root => sys.isRelativeTo resolved root) = true)
    (hex : sys.pathExists resolved = true)
    (hfile : sys.pathIsFile resolved = true)
    (hstat : sys.statSize resolved = .ok size)
    (hbig : (size : Int) > effectiveLimit sys max_bytes) :
    resolve_local_path sys path_str allowed_roots max_bytes =
      .err ⟨"file_too_large", "File exceeds size limit.",
            [("path", .str resolved), ("size", .nat size),
             ("max_bytes", .int (effectiveLimit sys max_bytes))]⟩ ∧
    (∀ m, effectiveLimit sys (some m) = m) ∧
    effectiveLimit sys Option.none = _parse_max_bytes sys.envMaxFileBytes ∧
    _parse_max_bytes Option.none = 2000000 ∧
    _parse_max_bytes (some "") = 2000000 ∧
    (∀ v n, pyIntParse v = some n → 0 < n → _parse_max_bytes (some v) = n) ∧
    (∀ v n, pyIntParse v = some n → n ≤ 0 → _parse_max_bytes (some v) = 2000000) ∧
    (∀ v, pyIntParse v = Option.none → _parse_max_bytes (some v) = 2000000) := by
  refine ⟨?_, fun m => rfl, rfl, rfl, rfl, ?_, ?_, ?_⟩
  · simp [resolve_local_path, hblank, hexp, hres, hroots, hin, hex, hfile, hstat, hbig]
  · intro v n hparse hpos
    simp [_parse_max_bytes, pyIntParse_data_ne_nil hparse, hparse, hpos]
  · intro v n hparse hnonpos
    simp [_parse_max_bytes, pyIntParse_data_ne_nil hparse, hparse,
      DEFAULT_MAX_FILE_BYTES, not_lt.mpr hnonpos]
  · intro v hparse
    rcases hv : v.data.isEmpty with _ | _
    · simp [_parse_max_bytes, hv, hparse, DEFAULT_MAX_FILE_BYTES]
    · simp [_parse_max_bytes, hv, DEFAULT_MAX_FILE_BYTES]

/-- Witness for C4: a 2,000,001-byte admissible file under default
configuration fails `file_too_large` with `max_bytes = 2000000`. -/
theorem resolve_size_ceiling_witness :
    resolve_local_path sysBigFile "/repo/big.cif" Option.none Option.none =
      .err ⟨"file_too_large", "File exceeds size limit.",
            [("path", .str "/repo/big.cif"), ("size", .nat 2000001),
             ("max_bytes", .int 2000000)]⟩ :=
  (resolve_size_ceiling sysBigFile "/repo/big.cif" Option.none Option.none
    "/repo/big.cif" "/repo/big.cif" ["/repo", "/repo/assets", "/cwd"] 2000001
    rfl rfl rfl rfl rfl rfl rfl rfl (by decide)).1

/-! ### Claim theorems: envelope protocol -/

/-- Claim C2: every envelope returned by `make_ok`/`make_err` passes
strict validation; whenever the directly constructed value fails the
invariants, the function returns the synthetic `runtime_error` envelope
(message "Envelope validation failed.", empty meta and provenance) instead
of the malformed value. -/
theorem make_envelopes_strictly_valid
    (data meta prov det : PyVal) (etype emsg : String) (meta' prov' : PyVal) :
    validate_envelope (make_ok data meta prov) true = .ok (make_ok data meta prov) ∧
    validate_envelope (make_err etype emsg det meta' prov') true =
      .ok (make_err etype emsg det meta' prov') ∧
    (∀ msg, envelopeCheck (_envelope true data PyVal.none meta prov) = .error msg →
      make_ok data meta prov = syntheticEnvelope msg) ∧
    (∀ msg, envelopeCheck (_envelope false PyVal.none
        (.dict [("type", .str etype), ("message", .str emsg), ("details", det)])
        meta' prov') = .error msg →
      make_err etype emsg det meta' prov' = syntheticEnvelope msg) ∧
    (∀ msg,
      dictGet (syntheticEnvelope msg) "ok" = some (PyVal.bool false) ∧
      dictGet (syntheticEnvelope msg) "error" =
        some (.dict [("type", .str "runtime_error"),
                     ("message", .str "Envelope validation failed."),
                     ("details", .str msg)]) ∧
      dictGet (syntheticEnvelope msg) "meta" = some (.dict []) ∧
      dictGet (syntheticEnvelope msg) "provenance" = some (.dict [])) := by
  refine ⟨?_, ?_, ?_, ?_, fun msg => ⟨rfl, rfl, rfl, rfl⟩⟩
  · cases h : envelopeCheck (_envelope true data PyVal.none meta prov) with
    | ok u => cases u; simp [make_ok, validate_envelope, h]
    | error msg => simp [make_ok, validate_envelope, h, envelopeCheck_synthetic]
  · cases h : envelopeCheck (_envelope false PyVal.none
        (.dict [("type", .str etype), ("message", .str emsg), ("details", det)])
        meta' prov') with
    | ok u => cases u; simp [make_err, validate_envelope, h]
    | error msg => simp [make_err, validate_envelope, h, envelopeCheck_synthetic]
  · intro msg h
    simp [make_ok, validate_envelope, h]
  · intro msg h
    simp [make_err, validate_envelope, h]

/-- Witness for C2: a truthy non-dict `meta` and an error type outside the
closed set both trigger the synthetic substitution. -/
theorem make_envelopes_strictly_valid_witness :
    make_ok PyVal.none (PyVal.int 1) PyVal.none =
      syntheticEnvelope "meta must be dict." ∧
    make_err "not_a_type" "boom" PyVal.none PyVal.none PyVal.none =
      syntheticEnvelope "Invalid error.type: not_a_type" :=
  ⟨(make_envelopes_strictly_valid PyVal.none (PyVal.int 1) PyVal.none
      PyVal.none "x" "y" PyVal.none PyVal.none).2.2.1 "meta must be dict." rfl,
   (make_envelopes_strictly_valid PyVal.none PyVal.none PyVal.none
      PyVal.none "not_a_type" "boom" PyVal.none PyVal.none).2.2.2.1
      "Invalid error.type: not_a_type" rfl⟩

/-! ### Claim theorems: neighbor post-processing -/

theorem mkResults_mem {i : Nat} {l : List Neighbor} {r : ResultEntry}
    (h : r ∈ mkResults i l) :
    ∃ m ∈ l, r.material_id = m.material_id ∧ r.formula = m.formula ∧
      r.distance = m.distance ∧ r.similarity = _derived_similarity m.distance := by
  induction l generalizing i with
  | nil => simp [mkResults] at h
  | cons n rest ih =>
    rw [mkResults, List.mem_cons] at h
    rcases h with h | h
    · exact ⟨n, List.mem_cons_self n rest, by simp [h]⟩
    · obtain ⟨m, hm, hr⟩ := ih h
      exact ⟨m, List.mem_cons_of_mem _ hm, hr⟩

theorem mkResults_sorted {l : List Neighbor} (hl : List.Sorted neighborLE l) :
    ∀ i, List.Sorted resultLE (mkResults i l) := by
  induction l with
  | nil => intro i; simp [mkResults]
  | cons n rest ih =>
    intro i
    rw [List.sorted_cons] at hl
    rw [mkResults, List.sorted_cons]
    refine ⟨?_, ih hl.2 (i + 1)⟩
    intro r hr
    obtain ⟨m, hm, h1, h2, h3, _⟩ := mkResults_mem hr
    have hnm : neighborLE n m := hl.1 m hm
    show toLex (n.distance, toLex (n.material_id, n.formula)) ≤
      toLex (r.distance, toLex (r.material_id, r.formula))
    rw [h1, h2, h3]
    exact hnm

theorem mkResults_rank :
    ∀ (l : List Neighbor) (i j : Nat) (h : j < (mkResults i l).length),
      ((mkResults i l).get ⟨j, h⟩).rank = i + j := by
  intro l
  induction l with
  | nil => intro i j h; simp [mkResults] at h
  | cons n rest ih =>
    intro i j h
    cases j with
    | zero => simp [mkResults]
    | succ j' =>
      have hlen : j' < (mkResults (i + 1) rest).length := by
        simpa [mkResults] using h
      have hre := ih (i + 1) j' hlen
      simp only [mkResults, List.get_eq_getElem, List.getElem_cons_succ]
      simp only [List.get_eq_getElem] at hre
      rw [hre]
      omega

/-- Claim C5: for every collaborator-supplied neighbor collection, the
returned neighbor list is sorted nondecreasingly by
`(distance, material_id, formula)` independently of the supplied order,
each entry's rank is its 1-based position, and each similarity equals
`1 / (1 + distance)`; identical inputs give identical output. -/
theorem similarity_results_sorted_deterministic
    (ns ns' : List Neighbor) (h : ns.Perm ns') :
    neighborResults ns = neighborResults ns' ∧
    List.Sorted resultLE (neighborResults ns) ∧
    (∀ i (hi : i < (neighborResults ns).length),
      ((neighborResults ns).get ⟨i, hi⟩).rank = i + 1) ∧
    (∀ r ∈ neighborResults ns, r.similarity = 1 / (1 + r.distance)) := by
  refine ⟨?_, mkResults_sorted (List.sorted_insertionSort _ _) 1, ?_, ?_⟩
  · have hs1 : List.Sorted neighborLE (sortNeighbors ns) :=
      List.sorted_insertionSort _ _
    have hs2 : List.Sorted neighborLE (sortNeighbors ns') :=
      List.sorted_insertionSort _ _
    have hp : (sortNeighbors ns).Perm (sortNeighbors ns') :=
      (List.perm_insertionSort _ _).trans (h.trans (List.perm_insertionSort _ _).symm)
    unfold neighborResults
    rw [List.eq_of_perm_of_sorted hp hs1 hs2]
  · intro i hi
    have hre := mkResults_rank (sortNeighbors ns) 1 i hi
    rw [show ((neighborResults ns).get ⟨i, hi⟩).rank =
        ((mkResults 1 (sortNeighbors ns)).get ⟨i, hi⟩).rank from rfl, hre]
    omega
  · intro r hr
    obtain ⟨m, _, _, _, h3, h4⟩ := mkResults_mem hr
    rw [h4, h3]
    rfl

/-- A concrete neighbor pair used by the C5 witness. -/
def nbA : Neighbor := ⟨"mp-1", "Fe2O3", 1⟩

/-- A concrete neighbor pair used by the C5 witness. -/
def nbB : Neighbor := ⟨"mp-2", "O2", 2⟩

/-- Witness for C5: two opposite orderings of the same two neighbors give
the same returned list. -/
theorem similarity_results_sorted_deterministic_witness :
    neighborResults [nbB, nbA] = neighborResults [nbA, nbB] :=
  (similarity_results_sorted_deterministic [nbB, nbA] [nbA, nbB]
    (List.Perm.swap nbA nbB [])).1

/-! ### Claim theorems: atomic writer -/

theorem revSplitAtDot_eq :
    ∀ {l a b : List Char}, revSplitAtDot l = some (a, b) → l = a ++ '.' :: b := by
  intro l
  induction l with
  | nil => intro a b h; simp [revSplitAtDot] at h
  | cons c rest ih =>
    intro a b h
    by_cases hc : c = '.'
    · subst hc
      simp [revSplitAtDot] at h
      obtain ⟨ha, hb⟩ := h
      subst ha
      subst hb
      simp
    · cases hr : revSplitAtDot rest with
      | none => simp [revSplitAtDot, hc, hr] at h
      | some p =>
        obtain ⟨pa, pb⟩ := p
        simp [revSplitAtDot, hc, hr] at h
        obtain ⟨ha, hb⟩ := h
        subst ha
        subst hb
        have hrest := ih hr
        simp [hrest]

theorem pySplitName_spec (n : List Char) :
    (pySplitName n).1 ++ (pySplitName n).2 = n ∧
    ((pySplitName n).2 = [] ∨ ∃ t, (pySplitName n).2 = '.' :: t) := by
  unfold pySplitName
  cases hr : revSplitAtDot n.reverse with
  | none => simp
  | some p =>
    obtain ⟨pa, pb⟩ := p
    by_cases hemp : (pa.isEmpty || pb.isEmpty) = true
    · simp [hemp]
    · rw [Bool.not_eq_true] at hemp
      simp only [hemp]
      constructor
      · have hrev := revSplitAtDot_eq hr
        have hn : n = (pa ++ '.' :: pb).reverse := by
          rw [← hrev, List.reverse_reverse]
        rw [hn]
        simp
      · exact Or.inr ⟨pa.reverse, rfl⟩

theorem tmpNameOf_ne (n rand : List Char) : tmpNameOf n rand ≠ n := by
  intro h
  obtain ⟨hsplit, hsuf⟩ := pySplitName_spec n
  unfold tmpNameOf pyStem at h
  have h2 := h.trans hsplit.symm
  have hcancel := List.append_cancel_left h2
  rcases hsuf with h3 | ⟨t, h3⟩
  · rw [h3] at hcancel
    exact List.noConfusion hcancel
  · rw [h3] at hcancel
    injection hcancel with h4 _
    exact absurd h4 (by decide)

theorem getFile_rem_ne (files : List (WPath × String)) (p q : WPath) (h : q ≠ p) :
    getFile (remFile files p) q = getFile files q := by
  induction files with
  | nil => rfl
  | cons e rest ih =>
    have hpq : ¬ p = q := fun hh => h hh.symm
    by_cases he : e.1 = p
    · simpa [remFile, List.filter_cons, he, getFile, hpq] using ih
    · by_cases hq : e.1 = q
      · simp [remFile, List.filter_cons, he, getFile, hq, h]
      · simpa [remFile, List.filter_cons, he, getFile, hq] using ih

theorem getFile_rem_self (files : List (WPath × String)) (p : WPath) :
    getFile (remFile files p) p = Option.none := by
  induction files with
  | nil => rfl
  | cons e rest ih =>
    by_cases he : e.1 = p
    · simpa [remFile, List.filter_cons, he] using ih
    · simpa [remFile, List.filter_cons, he, getFile] using ih

theorem getFile_set_same (files : List (WPath × String)) (p : WPath) (c : String) :
    getFile (setFile files p c) p = some c := by
  simp [getFile, setFile]

theorem getFile_set_ne (files : List (WPath × String)) (p : WPath) (c : String)
    (q : WPath) (h : q ≠ p) :
    getFile (setFile files p c) q = getFile files q := by
  have hp : ¬ p = q := fun hpq => h hpq.symm
  simp only [setFile, getFile, hp, if_false]
  exact getFile_rem_ne files p q h

/-- Claim C3: after `atomic_write_text` returns, the target holds exactly
the written content, the `.tmp` temporary created by the call (same
directory, name `stem_<random>.tmp`) is gone, every prefix of the
destination directory exists, and no other file was touched. -/
theorem atomic_write_text_correct (fs : WriteFS) (rand : List Char)
    (target : WPath) (content : String) :
    getFile (atomic_write_text fs rand target content).files target = some content ∧
    getFile (atomic_write_text fs rand target content).files
      ⟨target.dir, tmpNameOf target.name rand⟩ = Option.none ∧
    tmpNameOf target.name rand = (pyStem target.name ++ '_' :: rand) ++ ".tmp".data ∧
    (∀ k, k ≤ target.dir.length →
      target.dir.take k ∈ (atomic_write_text fs rand target content).dirs) ∧
    (∀ p, p ≠ target → p ≠ ⟨target.dir, tmpNameOf target.name rand⟩ →
      getFile (atomic_write_text fs rand target content).files p = getFile fs.files p) := by
  have htne : (⟨target.dir, tmpNameOf target.name rand⟩ : WPath) ≠ target := by
    intro h
    exact tmpNameOf_ne target.name rand (congrArg WPath.name h)
  refine ⟨?_, ?_, by simp [tmpNameOf], ?_, ?_⟩
  · simp only [atomic_write_text]
    exact getFile_set_same _ _ _
  · simp only [atomic_write_text]
    rw [getFile_set_ne _ _ _ _ htne]
    exact getFile_rem_self _ _
  · intro k hk
    simp only [atomic_write_text, mkdirParents]
    refine List.mem_append_left _ (List.mem_map.mpr ⟨k, List.mem_range.mpr ?_, rfl⟩)
    omega
  · intro p hp hptmp
    simp only [atomic_write_text]
    rw [getFile_set_ne _ _ _ _ hp, getFile_rem_ne _ _ _ hptmp,
      getFile_set_ne _ _ _ _ hptmp]
    rfl

/-- Witness for C3 at the specification's scenario values. -/
theorem atomic_write_text_correct_witness :
    getFile (atomic_write_text ⟨[], []⟩ "abcdefgh".data
        ⟨["sky_reports"], "Fe2O3_fixed-uuid.html".data⟩ "<html>ok</html>").files
      ⟨["sky_reports"], "Fe2O3_fixed-uuid.html".data⟩ = some "<html>ok</html>" ∧
    getFile (atomic_write_text ⟨[], []⟩ "abcdefgh".data
        ⟨["sky_reports"], "Fe2O3_fixed-uuid.html".data⟩ "<html>ok</html>").files
      ⟨["sky_reports"], tmpNameOf "Fe2O3_fixed-uuid.html".data "abcdefgh".data⟩ =
      Option.none ∧
    ["sky_reports"] ∈ (atomic_write_text ⟨[], []⟩ "abcdefgh".data
        ⟨["sky_reports"], "Fe2O3_fixed-uuid.html".data⟩ "<html>ok</html>").dirs ∧
    getFile (atomic_write_text ⟨[], []⟩ "abcdefgh".data
        ⟨["sky_reports"], "Fe2O3_fixed-uuid.html".data⟩ "<html>ok</html>").files
      ⟨["sky_reports"], "other.html".data⟩ = getFile ([] : List (WPath × String))
        ⟨["sky_reports"], "other.html".data⟩ :=
  ⟨(atomic_write_text_correct ⟨[], []⟩ "abcdefgh".data
      ⟨["sky_reports"], "Fe2O3_fixed-uuid.html".data⟩ "<html>ok</html>").1,
   (atomic_write_text_correct ⟨[], []⟩ "abcdefgh".data
      ⟨["sky_reports"], "Fe2O3_fixed-uuid.html".data⟩ "<html>ok</html>").2.1,
   (atomic_write_text_correct ⟨[], []⟩ "abcdefgh".data
      ⟨["sky_reports"], "Fe2O3_fixed-uuid.html".data⟩ "<html>ok</html>").2.2.2.1 1
      (by decide),
   (atomic_write_text_correct ⟨[], []⟩ "abcdefgh".data
      ⟨["sky_reports"], "Fe2O3_fixed-uuid.html".data⟩ "<html>ok</html>").2.2.2.2
      ⟨["sky_reports"], "other.html".data⟩ (by decide) (by decide)⟩

/-! ### Claim theorems: artifact path building -/

theorem mem_of_mem_dropWhile {α : Type} {p : α → Bool} :
    ∀ {l : List α} {a : α}, a ∈ l.dropWhile p → a ∈ l := by
  intro l
  induction l with
  | nil => intro a h; simp [List.dropWhile] at h
  | cons x xs ih =>
    intro a h
    by_cases hx : p x = true
    · rw [List.dropWhile_cons, if_pos hx] at h
      exact List.mem_cons_of_mem _ (ih h)
    · rw [List.dropWhile_cons, if_neg hx] at h
      exact h

theorem mem_of_mem_stripUnderscores {c : Char} {l : List Char}
    (h : c ∈ stripUnderscores l) : c ∈ l := by
  unfold stripUnderscores at h
  rw [List.mem_reverse] at h
  have h2 := mem_of_mem_dropWhile h
  rw [List.mem_reverse] at h2
  exact mem_of_mem_dropWhile h2

theorem collapseAux_mem {c : Char} :
    ∀ (b : Bool) (l : List Char), c ∈ collapseAux b l → isSlugChar c = true := by
  intro b l
  induction l generalizing b with
  | nil => intro h; simp [collapseAux] at h
  | cons d rest ih =>
    intro h
    rw [collapseAux] at h
    by_cases hd : isSlugChar d = true
    · rw [if_pos hd] at h
      rcases List.mem_cons.mp h with h | h
      · subst h; exact hd
      · exact ih false h
    · rw [if_neg hd] at h
      cases b with
      | true => exact ih true (by simpa using h)
      | false =>
        rcases List.mem_cons.mp (by simpa using h) with h | h
        · subst h; decide
        · exact ih true h

theorem report_chars : ∀ c ∈ "report".data, isSlugChar c = true := by decide

theorem slugify_chars {q : List Char} {c : Char} (h : c ∈ _slugify q) :
    isSlugChar c = true := by
  simp only [_slugify] at h
  have h1 := (List.take_sublist 50 _).subset h
  by_cases hs : (stripUnderscores (collapseSub q)).isEmpty = true
  · rw [if_pos hs] at h1
    exact report_chars c h1
  · rw [if_neg hs] at h1
    exact collapseAux_mem false q (mem_of_mem_stripUnderscores h1)

/-- Counterexample to C7 as stated: the source replaces each maximal RUN
of disallowed characters by one underscore (regex quantifier `+`), not
each disallowed character by its own underscore, so for the query
`"a!!b"` the produced filename is `a_b_u.html` and not the claimed
`a__b_u.html`. -/
theorem build_report_path_per_char_cex :
    build_report_path "a!!b".data ["sky_reports"] (fun _ => "u".data) =
      ⟨["sky_reports"], "a_b_u.html".data⟩ ∧
    slugifyClaimed "a!!b".data = "a__b".data ∧
    (build_report_path "a!!b".data ["sky_reports"] (fun _ => "u".data)).name ≠
      slugifyClaimed "a!!b".data ++ '_' :: ("u".data ++ ".html".data) := by
  refine ⟨by decide, by decide, by decide⟩

/-- Claim C7 (amended): `build_report_path` returns
`directory/slug_uid.html` where the slug replaces every maximal run of
characters outside `[A-Za-z0-9_-]` by a single `_`, trims `_` from both
ends, defaults to `report` when empty and is truncated to 50 characters;
the slug is nonempty and filesystem-safe, and the `Fe2O3`/`fixed-uuid`
scenario produces `Fe2O3_fixed-uuid.html`. -/
theorem build_report_path_spec (q : List Char) (dir : List String)
    (uuid_func : Unit → List Char) :
    build_report_path q dir uuid_func =
      ⟨dir, _slugify q ++ '_' :: (uuid_func () ++ ".html".data)⟩ ∧
    (∀ c ∈ _slugify q, isSlugChar c = true) ∧
    (_slugify q).length ≤ 50 ∧
    _slugify q ≠ [] ∧
    build_report_path "Fe2O3".data ["sky_reports"] (fun _ => "fixed-uuid".data) =
      ⟨["sky_reports"], "Fe2O3_fixed-uuid.html".data⟩ := by
  refine ⟨rfl, fun c hc => slugify_chars hc, ?_, ?_, by decide⟩
  · simp only [_slugify]
    rw [List.length_take]
    exact min_le_left _ _
  · simp only [_slugify]
    by_cases hs : (stripUnderscores (collapseSub q)).isEmpty = true
    · rw [if_pos hs]
      decide
    · rw [if_neg hs]
      rcases hl : stripUnderscores (collapseSub q) with _ | ⟨d, t⟩
      · rw [hl] at hs; simp at hs
      · simp

/-- Witness for C7 (amended) at a query containing a disallowed
character. -/
theorem build_report_path_spec_witness :
    build_report_path "Fe!2O3".data ["sky_reports"] (fun _ => "u".data) =
      ⟨["sky_reports"], _slugify "Fe!2O3".data ++ '_' :: ("u".data ++ ".html".data)⟩ ∧
    isSlugChar 'F' = true :=
  ⟨(build_report_path_spec "Fe!2O3".data ["sky_reports"] (fun _ => "u".data)).1,
   (build_report_path_spec "Fe!2O3".data ["sky_reports"] (fun _ => "u".data)).2.1
     'F' (by decide)⟩

/-! ### Claim theorems: tool registry -/

/-- Counterexample to C8 as stated: `_register_tools` performs no
uniqueness check at registration time — a descriptor list with a
duplicated name is registered entry for entry without any failure. -/
theorem register_tools_no_uniqueness_check_cex :
    _register_tools true
      [⟨"dup", ToolFun.capabilities, "first"⟩,
       ⟨"dup", ToolFun.capabilities, "second"⟩] =
      [⟨some "dup", some "first", ToolFun.capabilities⟩,
       ⟨some "dup", some "second", ToolFun.capabilities⟩] ∧
    ¬ ([(⟨"dup", ToolFun.capabilities, "first"⟩ : ToolDef),
        ⟨"dup", ToolFun.capabilities, "second"⟩].map ToolDef.name).Nodup := by
  refine ⟨rfl, by decide⟩

/-- Claim C8 (amended): the registry is the fixed, statically declared
ordered sequence `TOOL_DEFS`, its twelve names are pairwise distinct, and
`_register_tools` binds every descriptor in order unconditionally — no
uniqueness check is performed at registration time. -/
theorem tool_registry_static_unique :
    TOOL_DEFS.map ToolDef.name =
      ["capabilities", "search_similar_by_composition",
       "search_similar_by_structure_cif", "search_similar_by_structure_path",
       "read_cif", "read_cif_path", "get_material_properties",
       "get_synthesis_recipes", "analyze_synthesis_parameters",
       "recursive_synthesis_search", "discover_synthesis_report",
       "self_check"] ∧
    (TOOL_DEFS.map ToolDef.name).Nodup ∧
    (∀ b defs, (_register_tools b defs).length = defs.length) ∧
    (∀ defs, _register_tools true defs =
      defs.map (fun d => ⟨some d.name, some d.description, d.handler⟩)) := by
  refine ⟨rfl, by decide, fun b defs => by simp [_register_tools],
    fun defs => by simp [_register_tools]⟩

end SkyMCP
